import Mathlib

/-!
Shallow embedding of the alert queue / active-set manager of
umituz/react-native-alert.

Sources embedded here:
- src/domain/entities/Alert.entity.ts          (types and enums)
- src/domain/entities/AlertConfig.entity.ts    (AlertConfig, DEFAULT_ALERT_CONFIG)
- src/domain/entities/AlertQueue.entity.ts     (AlertQueueItem)
- the Zustand store (addAlert, removeAlert, enqueueAlert, dequeueAlert,
  loadPersistedAlerts, persistAlerts, limitVisibleAlerts)
- src/infrastructure/services/AlertService.ts  (createAlert, the convenience
  constructors, generateId, getDefaultPosition, AlertQueueService.processQueue)
- the useAlert hook (the show function)

Numbers that the code treats as timestamps are Nat milliseconds; durations and
priorities are Int (JS numbers used as signed integers by the code).  Effects
(setTimeout, AsyncStorage) are made explicit: the auto-dismiss setTimeout is
modelled by the scheduled-removal value a call to addAlert registers, and
AsyncStorage by an explicit optional snapshot value threaded through save/load.
JS function values (the onPress handler of an action) carry no observable data
and are not part of the model.
-/

namespace AlertSpec

/-- AlertType from Alert.entity.ts. -/
inductive AlertType where
  | success
  | error
  | warning
  | info
deriving DecidableEq, Repr

/-- AlertMode from Alert.entity.ts. -/
inductive AlertMode where
  | toast
  | banner
  | modal
  | inlineMode
deriving DecidableEq, Repr

/-- AlertPosition from Alert.entity.ts. -/
inductive AlertPosition where
  | top
  | bottom
  | center
deriving DecidableEq, Repr

/-- AlertAnimation from Alert.entity.ts. -/
inductive AlertAnimation where
  | slide
  | fade
  | scale
  | bounce
deriving DecidableEq, Repr

/-- QueueMode from AlertConfig.entity.ts: fifo | lifo | priority. -/
inductive QueueMode where
  | fifo
  | lifo
  | priority
deriving DecidableEq, Repr

/-- AlertAction from Alert.entity.ts.  The onPress handler is a JS function
value with no observable data, so it is not part of the model. -/
structure AlertAction where
  id : String
  label : String
  style : String
  closeOnPress : Option Bool
deriving DecidableEq, Repr

/-- Alert from Alert.entity.ts.  Optional fields are Option. -/
structure Alert where
  id : String
  type : AlertType
  mode : AlertMode
  title : String
  message : Option String
  icon : Option String
  actions : Option (List AlertAction)
  position : Option AlertPosition
  animation : Option AlertAnimation
  duration : Option Int
  dismissible : Option Bool
  hapticFeedback : Option Bool
  testID : Option String
  metadata : Option (List (String × String))
  createdAt : Nat
  showAt : Option Nat
  priority : Option Int
deriving DecidableEq, Repr

/-- AlertOptions from Alert.entity.ts (every field optional). -/
structure AlertOptions where
  type : Option AlertType
  mode : Option AlertMode
  icon : Option String
  actions : Option (List AlertAction)
  position : Option AlertPosition
  animation : Option AlertAnimation
  duration : Option Int
  dismissible : Option Bool
  hapticFeedback : Option Bool
  testID : Option String
  metadata : Option (List (String × String))
  showAt : Option Nat
  priority : Option Int
deriving DecidableEq, Repr

/-- The empty options bag, the `options = {}` default of createAlert. -/
def defaultAlertOptions : AlertOptions :=
  { type := none, mode := none, icon := none, actions := none, position := none
    animation := none, duration := none, dismissible := none
    hapticFeedback := none, testID := none, metadata := none, showAt := none
    priority := none }

/-- CreateAlertInput from Alert.entity.ts. -/
structure CreateAlertInput where
  title : String
  message : Option String
  type : Option AlertType
  mode : Option AlertMode
  options : Option AlertOptions
deriving DecidableEq, Repr

/-- AlertConfig from AlertConfig.entity.ts. -/
structure AlertConfig where
  maxQueueSize : Nat
  defaultDuration : Int
  defaultPosition : AlertPosition
  defaultAnimation : AlertAnimation
  enableHaptics : Bool
  enableAccessibility : Bool
  persistAlerts : Bool
  queueMode : QueueMode
  maxVisibleToasts : Nat
  maxVisibleBanners : Nat
  animationDuration : Int
deriving DecidableEq, Repr

/-- DEFAULT_ALERT_CONFIG from AlertConfig.entity.ts. -/
def DEFAULT_ALERT_CONFIG : AlertConfig :=
  { maxQueueSize := 50
    defaultDuration := 3000
    defaultPosition := AlertPosition.top
    defaultAnimation := AlertAnimation.slide
    enableHaptics := true
    enableAccessibility := true
    persistAlerts := false
    queueMode := QueueMode.fifo
    maxVisibleToasts := 3
    maxVisibleBanners := 1
    animationDuration := 300 }

/-- AlertQueueItem from AlertQueue.entity.ts. -/
structure AlertQueueItem where
  alert : Alert
  enqueueAt : Nat
deriving DecidableEq, Repr

/-- The state slice of the Zustand AlertStore. -/
structure AlertStoreState where
  activeAlerts : List Alert
  queue : List AlertQueueItem
  config : AlertConfig
  isProcessing : Bool
  isPaused : Bool
deriving DecidableEq, Repr

/-- JS arr.slice(-k) for a natural k: the last k elements, except that
slice(-0) is slice(0), the whole array. -/
def sliceNeg (k : Nat) (l : List α) : List α :=
  if k = 0 then l else l.drop (l.length - k)

/-- The filter predicate a.mode === AlertMode.TOAST of limitVisibleAlerts. -/
def toastP (a : Alert) : Bool := decide (a.mode = AlertMode.toast)

/-- The filter predicate a.mode === AlertMode.BANNER of limitVisibleAlerts. -/
def bannerP (a : Alert) : Bool := decide (a.mode = AlertMode.banner)

/-- The filter predicate of the third bucket of limitVisibleAlerts:
a.mode !== TOAST && a.mode !== BANNER. -/
def otherP (a : Alert) : Bool :=
  decide (a.mode ≠ AlertMode.toast) && decide (a.mode ≠ AlertMode.banner)

/-- limitVisibleAlerts from the store: partition into toast/banner/other,
keep the last maxVisibleToasts toasts and last maxVisibleBanners banners
(slice(-k)), recombine banners ++ toasts ++ others. -/
def limitVisibleAlerts (alerts : List Alert) (config : AlertConfig) : List Alert :=
  let toastAlerts := alerts.filter toastP
  let bannerAlerts := alerts.filter bannerP
  let otherAlerts := alerts.filter otherP
  let limitedToasts := sliceNeg config.maxVisibleToasts toastAlerts
  let limitedBanners := sliceNeg config.maxVisibleBanners bannerAlerts
  limitedBanners ++ limitedToasts ++ otherAlerts

/-- The state update of the store's addAlert: append the alert to
activeAlerts, then apply limitVisibleAlerts to the result. -/
def addAlert (s : AlertStoreState) (alert : Alert) : AlertStoreState :=
  { s with activeAlerts := limitVisibleAlerts (s.activeAlerts ++ [alert]) s.config }

/-- The auto-dismiss setTimeout that addAlert registers: when
alert.duration && alert.duration > 0 (JS truthiness: 0 is falsy), a removal
of alert.id is scheduled to fire at now + duration; otherwise nothing is
scheduled. -/
def addAlertScheduledRemoval (now : Nat) (alert : Alert) : Option (Int × String) :=
  match alert.duration with
  | some d => if d ≠ 0 ∧ 0 < d then some ((now : Int) + d, alert.id) else none
  | none => none

/-- removeAlert from the store: filter activeAlerts to alerts whose id
differs from the removed id. -/
def removeAlert (s : AlertStoreState) (id : String) : AlertStoreState :=
  { s with activeAlerts := s.activeAlerts.filter (fun a => decide (a.id ≠ id)) }

/-- The sort key of the priority-mode sort: a.alert.priority ?? 0. -/
def priorityOf (i : AlertQueueItem) : Int := i.alert.priority.getD 0

/-- The precedence relation the JS comparator (priorityB - priorityA)
induces: x may come before y exactly when priority y ≤ priority x. -/
def priGE (x y : AlertQueueItem) : Prop := priorityOf y ≤ priorityOf x

instance : DecidableRel priGE :=
  fun x y => inferInstanceAs (Decidable (priorityOf y ≤ priorityOf x))

instance : IsTotal AlertQueueItem priGE :=
  ⟨fun x y => le_total (priorityOf y) (priorityOf x)⟩

instance : IsTrans AlertQueueItem priGE :=
  ⟨fun _ _ _ hxy hyz => le_trans hyz hxy⟩

/-- The priority-mode re-sort of enqueueAlert.  The JS comparator
(priorityB - priorityA) orders descending by priority, and Array.prototype.sort
is stable, so the result is the unique stable descending reordering; stable
insertion sort with the precedence relation priGE computes exactly that
list. -/
def sortByPriorityDesc (l : List AlertQueueItem) : List AlertQueueItem :=
  List.insertionSort priGE l

/-- The predicate "the item's effective priority equals p", used to state
that the priority sort is stable: it permutes nothing within one priority
class. -/
def priEq (p : Int) (i : AlertQueueItem) : Bool := decide (priorityOf i = p)

/-- enqueueAlert from the store: wrap the alert with enqueueAt = now, append;
if the new length exceeds config.maxQueueSize, keep slice(-maxQueueSize);
in priority mode, re-sort the whole queue descending by priority. -/
def enqueueAlert (now : Nat) (s : AlertStoreState) (alert : Alert) : AlertStoreState :=
  let queueItem : AlertQueueItem := { alert := alert, enqueueAt := now }
  let newQueue := s.queue ++ [queueItem]
  let boundedQueue :=
    if s.config.maxQueueSize < newQueue.length then
      sliceNeg s.config.maxQueueSize newQueue
    else newQueue
  let sortedQueue :=
    if s.config.queueMode = QueueMode.priority then
      sortByPriorityDesc boundedQueue
    else boundedQueue
  { s with queue := sortedQueue }

/-- dequeueAlert from the store: returns null and leaves the queue untouched
when the queue is empty or the store is paused; otherwise pops the tail in
lifo mode and shifts the head in fifo or priority mode, committing the
shortened queue. -/
def dequeueAlert (s : AlertStoreState) : Option Alert × AlertStoreState :=
  if s.queue.length = 0 ∨ s.isPaused then
    (none, s)
  else if s.config.queueMode = QueueMode.lifo then
    (s.queue.getLast?.map AlertQueueItem.alert, { s with queue := s.queue.dropLast })
  else
    (s.queue.head?.map AlertQueueItem.alert, { s with queue := s.queue.tail })

/-- setProcessing from the store. -/
def setProcessing (s : AlertStoreState) (b : Bool) : AlertStoreState :=
  { s with isProcessing := b }

/-- The persisted {activeAlerts, queue} snapshot.  The JSON round trip through
AsyncStorage is the identity on these values (they are records of strings,
numbers and booleans), so storage is modelled as the snapshot itself. -/
abbrev StoredSnapshot := List Alert × List AlertQueueItem

/-- persistAlerts from the store: write the current snapshot. -/
def persistAlertsStore (s : AlertStoreState) : Option StoredSnapshot :=
  some (s.activeAlerts, s.queue)

/-- loadPersistedAlerts from the store: when a snapshot is stored, set
activeAlerts and queue from it (a saved snapshot always carries both fields,
so the || [] fallbacks of the code never fire); otherwise leave the state
unchanged. -/
def loadPersistedAlerts (stored : Option StoredSnapshot) (s : AlertStoreState) : AlertStoreState :=
  match stored with
  | some (activeAlerts, queue) => { s with activeAlerts := activeAlerts, queue := queue }
  | none => s

/-- The delay guard of AlertQueueService.processQueue:
alert.showAt && alert.showAt > Date.now() (JS truthiness: showAt 0 is falsy). -/
def showAtFuture (now : Nat) (alert : Alert) : Bool :=
  match alert.showAt with
  | some t => decide (t ≠ 0) && decide (now < t)
  | none => false

/-- AlertQueueService.processQueue, one tick at wall-clock time now: skip when
paused or processing; dequeue one alert (nothing to do when none); re-enqueue
it without promoting when its showAt is in the future; otherwise set
isProcessing and promote it through addAlert.  (The 100 ms timer that later
clears isProcessing is a separate callback and not part of the tick itself.) -/
def processQueue (now : Nat) (s : AlertStoreState) : AlertStoreState :=
  if s.isPaused ∨ s.isProcessing then s
  else
    match dequeueAlert s with
    | (none, _) => s
    | (some alert, s2) =>
      if showAtFuture now alert then enqueueAlert now s2 alert
      else addAlert (setProcessing s2 true) alert

/-- ALERT_ICONS from alertConstants.ts. -/
def ALERT_ICONS : AlertType → String
  | AlertType.success => "CheckCircle"
  | AlertType.error => "XCircle"
  | AlertType.warning => "AlertTriangle"
  | AlertType.info => "Info"

/-- ALERT_DURATIONS.SHORT from alertConstants.ts. -/
def ALERT_DURATIONS_SHORT : Int := 2000

/-- ALERT_DURATIONS.MEDIUM from alertConstants.ts. -/
def ALERT_DURATIONS_MEDIUM : Int := 3000

/-- ALERT_DURATIONS.LONG from alertConstants.ts. -/
def ALERT_DURATIONS_LONG : Int := 5000

/-- AlertService.getDefaultPosition. -/
def getDefaultPosition : AlertMode → AlertPosition
  | AlertMode.toast => AlertPosition.top
  | AlertMode.banner => AlertPosition.top
  | AlertMode.modal => AlertPosition.center
  | AlertMode.inlineMode => AlertPosition.top

/-- AlertService.generateId: alert_ ++ Date.now() ++ _ ++ the seven base-36
characters Math.random().toString(36).substring(2, 9) produced.  The wall
clock reading and the random characters are explicit arguments. -/
def generateId (now : Nat) (rand : String) : String :=
  "alert_" ++ toString now ++ "_" ++ rand

/-- AlertService.createAlert.  now and rand stand for the Date.now() and
Math.random() readings the call makes.  The haptic side effect is
fire-and-forget with no influence on the returned alert and is not
modelled. -/
def createAlert (now : Nat) (rand : String) (input : CreateAlertInput) : Alert :=
  let type := input.type.getD AlertType.info
  let mode := input.mode.getD AlertMode.toast
  let options := input.options.getD defaultAlertOptions
  { id := generateId now rand
    type := type
    mode := mode
    title := input.title
    message := input.message
    icon := some (options.icon.getD (ALERT_ICONS type))
    actions := options.actions
    position := some (options.position.getD (getDefaultPosition mode))
    animation := some (options.animation.getD AlertAnimation.slide)
    duration := some (options.duration.getD ALERT_DURATIONS_MEDIUM)
    dismissible := some (options.dismissible.getD true)
    hapticFeedback := some (options.hapticFeedback.getD true)
    testID := options.testID
    metadata := options.metadata
    createdAt := now
    showAt := options.showAt
    priority := some (options.priority.getD 0) }

/-- AlertService.createSuccessAlert. -/
def createSuccessAlert (now : Nat) (rand : String) (title : String)
    (message : Option String) (options : Option AlertOptions) : Alert :=
  createAlert now rand
    { title := title, message := message, type := some AlertType.success
      mode := none, options := options }

/-- AlertService.createErrorAlert: spreads the caller options and overrides
duration with options?.duration ?? ALERT_DURATIONS.LONG. -/
def createErrorAlert (now : Nat) (rand : String) (title : String)
    (message : Option String) (options : Option AlertOptions) : Alert :=
  createAlert now rand
    { title := title, message := message, type := some AlertType.error
      mode := none
      options := some
        { options.getD defaultAlertOptions with
            duration := some ((options.bind AlertOptions.duration).getD ALERT_DURATIONS_LONG) } }

/-- AlertService.createWarningAlert. -/
def createWarningAlert (now : Nat) (rand : String) (title : String)
    (message : Option String) (options : Option AlertOptions) : Alert :=
  createAlert now rand
    { title := title, message := message, type := some AlertType.warning
      mode := none, options := options }

/-- AlertService.createInfoAlert. -/
def createInfoAlert (now : Nat) (rand : String) (title : String)
    (message : Option String) (options : Option AlertOptions) : Alert :=
  createAlert now rand
    { title := title, message := message, type := some AlertType.info
      mode := none, options := options }

/-- The Partial Alert input of the useAlert hook's show function:
every Alert field the caller may supply, each optional. -/
structure PartialAlertInput where
  id : Option String
  type : Option AlertType
  mode : Option AlertMode
  title : Option String
  message : Option String
  icon : Option String
  actions : Option (List AlertAction)
  position : Option AlertPosition
  animation : Option AlertAnimation
  duration : Option Int
  dismissible : Option Bool
  hapticFeedback : Option Bool
  testID : Option String
  metadata : Option (List (String × String))
  showAt : Option Nat
  priority : Option Int
deriving DecidableEq, Repr

/-- The alert construction done by the useAlert hook's show function:
it calls AlertService.createAlert with title = alertInput.title ?? '' and
the remaining fields copied into the options bag.  (The hook then hands the
built alert to addAlert.) -/
def showAlert (now : Nat) (rand : String) (p : PartialAlertInput) : Alert :=
  createAlert now rand
    { title := p.title.getD ""
      message := p.message
      type := p.type
      mode := p.mode
      options := some
        { type := none, mode := none
          icon := p.icon, actions := p.actions, position := p.position
          animation := p.animation, duration := p.duration
          dismissible := p.dismissible, hapticFeedback := p.hapticFeedback
          testID := p.testID, metadata := p.metadata, showAt := p.showAt
          priority := p.priority } }

/-! Concrete fixtures used by witnesses and counterexamples. -/

/-- A minimal concrete alert: only id, mode, priority, showAt and duration
vary; the remaining fields take fixed concrete values. -/
def mkAlert (id : String) (mode : AlertMode) (priority : Option Int)
    (showAt : Option Nat) (duration : Option Int) : Alert :=
  { id := id, type := AlertType.info, mode := mode, title := id
    message := none, icon := none, actions := none, position := none
    animation := none, duration := duration, dismissible := none
    hapticFeedback := none, testID := none, metadata := none, createdAt := 0
    showAt := showAt, priority := priority }

/-- A store in its initial state under the given configuration. -/
def emptyStore (cfg : AlertConfig) : AlertStoreState :=
  { activeAlerts := [], queue := [], config := cfg
    isProcessing := false, isPaused := false }

def cfgFifo2 : AlertConfig := { DEFAULT_ALERT_CONFIG with maxQueueSize := 2 }

def cfgLifo2 : AlertConfig :=
  { DEFAULT_ALERT_CONFIG with maxQueueSize := 2, queueMode := QueueMode.lifo }

def cfgPrio2 : AlertConfig :=
  { DEFAULT_ALERT_CONFIG with maxQueueSize := 2, queueMode := QueueMode.priority }

def cfgPrio : AlertConfig :=
  { DEFAULT_ALERT_CONFIG with queueMode := QueueMode.priority }

def cfgQueue0 : AlertConfig := { DEFAULT_ALERT_CONFIG with maxQueueSize := 0 }

def cfgToast0 : AlertConfig := { DEFAULT_ALERT_CONFIG with maxVisibleToasts := 0 }

def cfgPersist : AlertConfig := { DEFAULT_ALERT_CONFIG with persistAlerts := true }

def aA : Alert := mkAlert "A" AlertMode.toast (some 1) none none

def aB : Alert := mkAlert "B" AlertMode.toast (some 5) none none

def aC : Alert := mkAlert "C" AlertMode.toast (some 3) none none

def aC0 : Alert := mkAlert "C" AlertMode.toast (some 0) none none

def aDelayed : Alert := mkAlert "F" AlertMode.toast none (some 100) none

def aDur100 : Alert := mkAlert "D" AlertMode.toast none none (some 100)

def aDur0 : Alert := mkAlert "P" AlertMode.toast none none (some 0)

/-- A, B, C enqueued in order at times 1, 2, 3. -/
def run3 (cfg : AlertConfig) : AlertStoreState :=
  enqueueAlert 3 (enqueueAlert 2 (enqueueAlert 1 (emptyStore cfg) aA) aB) aC

/-- A(priority 1), B(priority 5), C(priority 0) enqueued in order at times
1, 2, 3 under priority mode with maxQueueSize = 2. -/
def runPrioEvict : AlertStoreState :=
  enqueueAlert 3 (enqueueAlert 2 (enqueueAlert 1 (emptyStore cfgPrio2) aA) aB) aC0

/-- A fifo store whose queue holds one delayed alert. -/
def sDelayed : AlertStoreState :=
  { emptyStore DEFAULT_ALERT_CONFIG with queue := [{ alert := aDelayed, enqueueAt := 0 }] }

def iA1 : AlertQueueItem := { alert := aA, enqueueAt := 1 }

def iB2 : AlertQueueItem := { alert := aB, enqueueAt := 2 }

/-- A store with one active alert and one queued item under a
persistAlerts = true configuration. -/
def sSaved : AlertStoreState :=
  { activeAlerts := [aA], queue := [iB2], config := cfgPersist
    isProcessing := false, isPaused := false }

/-! Helper lemmas about sliceNeg, the priority sort and the visibility
filter. -/

theorem sliceNeg_suffix (k : Nat) (l : List α) : sliceNeg k l <:+ l := by
  unfold sliceNeg
  split
  · exact List.suffix_refl l
  · exact List.drop_suffix _ l

theorem mem_of_mem_sliceNeg {k : Nat} {l : List α} {x : α}
    (h : x ∈ sliceNeg k l) : x ∈ l :=
  (sliceNeg_suffix k l).sublist.subset h

theorem length_sliceNeg_le {k : Nat} (hk : k ≠ 0) (l : List α) :
    (sliceNeg k l).length ≤ k := by
  unfold sliceNeg
  rw [if_neg hk, List.length_drop]
  omega

theorem self_mem_sliceNeg_append (k : Nat) (q : List α) (i : α) :
    i ∈ sliceNeg k (q ++ [i]) := by
  unfold sliceNeg
  split
  · exact List.mem_append_right q (List.mem_singleton_self i)
  · rename_i hk
    have hle : (q ++ [i]).length - k ≤ q.length := by
      rw [List.length_append]
      simp only [List.length_cons, List.length_nil]
      omega
    rw [List.drop_append_of_le_length hle]
    exact List.mem_append_right _ (List.mem_singleton_self i)

theorem length_sortByPriorityDesc (l : List AlertQueueItem) :
    (sortByPriorityDesc l).length = l.length :=
  (List.perm_insertionSort priGE l).length_eq

theorem mem_sortByPriorityDesc {x : AlertQueueItem} {l : List AlertQueueItem} :
    x ∈ sortByPriorityDesc l ↔ x ∈ l :=
  (List.perm_insertionSort priGE l).mem_iff

theorem sorted_sortByPriorityDesc (l : List AlertQueueItem) :
    List.Sorted priGE (sortByPriorityDesc l) :=
  List.sorted_insertionSort priGE l

/-- orderedInsert never reorders a priority class: inserting x walks only
past items of strictly larger priority, so the items of priority p keep
their relative order, with x first among them when x itself has
priority p. -/
theorem filter_priEq_orderedInsert (p : Int) (x : AlertQueueItem) :
    ∀ l : List AlertQueueItem,
      (List.orderedInsert priGE x l).filter (priEq p) =
        if priorityOf x = p then x :: l.filter (priEq p) else l.filter (priEq p) := by
  intro l
  induction l with
  | nil =>
    simp only [List.orderedInsert, List.filter, priEq]
    split <;> simp_all [priEq]
  | cons b l ih =>
    by_cases hx : priGE x b
    · rw [List.orderedInsert_of_le priGE _ hx]
      by_cases hxp : priorityOf x = p <;> simp [List.filter, priEq, hxp]
    · have hlt : priorityOf x < priorityOf b := by
        unfold priGE at hx
        omega
      simp only [List.orderedInsert, if_neg hx]
      by_cases hbp : priorityOf b = p
      · have hxp : priorityOf x ≠ p := by omega
        simp [List.filter, priEq, hbp, hxp, ih]
      · by_cases hxp : priorityOf x = p <;> simp [List.filter, priEq, hbp, hxp, ih]

/-- Stability of the priority-mode re-sort: within any single priority
class the sorted queue lists the items in their original order. -/
theorem filter_priEq_sortByPriorityDesc (p : Int) :
    ∀ l : List AlertQueueItem,
      (sortByPriorityDesc l).filter (priEq p) = l.filter (priEq p) := by
  intro l
  induction l with
  | nil => rfl
  | cons b l ih =>
    unfold sortByPriorityDesc at ih ⊢
    simp only [List.insertionSort]
    rw [filter_priEq_orderedInsert]
    by_cases hbp : priorityOf b = p <;> simp [List.filter, priEq, hbp, ih]

theorem toastP_of_bannerP {a : Alert} (h : bannerP a = true) : toastP a = false := by
  simp only [bannerP, decide_eq_true_eq] at h
  simp [toastP, h]

theorem bannerP_of_toastP {a : Alert} (h : toastP a = true) : bannerP a = false := by
  simp only [toastP, decide_eq_true_eq] at h
  simp [bannerP, h]

theorem toastP_of_otherP {a : Alert} (h : otherP a = true) : toastP a = false := by
  simp only [otherP, Bool.and_eq_true, decide_eq_true_eq] at h
  simp [toastP, h.1]

theorem bannerP_of_otherP {a : Alert} (h : otherP a = true) : bannerP a = false := by
  simp only [otherP, Bool.and_eq_true, decide_eq_true_eq] at h
  simp [bannerP, h.2]

theorem otherP_of_toastP {a : Alert} (h : toastP a = true) : otherP a = false := by
  simp only [toastP, decide_eq_true_eq] at h
  simp [otherP, h]

theorem otherP_of_bannerP {a : Alert} (h : bannerP a = true) : otherP a = false := by
  simp only [bannerP, decide_eq_true_eq] at h
  simp [otherP, h]

/-- The toast bucket of the committed active set is the slice(-maxVisibleToasts)
of the toasts of the input list. -/
theorem filter_toastP_limitVisibleAlerts (l : List Alert) (cfg : AlertConfig) :
    (limitVisibleAlerts l cfg).filter toastP =
      sliceNeg cfg.maxVisibleToasts (l.filter toastP) := by
  have h1 : (sliceNeg cfg.maxVisibleBanners (l.filter bannerP)).filter toastP = [] :=
    List.filter_eq_nil_iff.mpr (fun x hx => by
      have hb := (List.mem_filter.mp (mem_of_mem_sliceNeg hx)).2
      simp [toastP_of_bannerP hb])
  have h2 : (sliceNeg cfg.maxVisibleToasts (l.filter toastP)).filter toastP =
      sliceNeg cfg.maxVisibleToasts (l.filter toastP) :=
    List.filter_eq_self.mpr
      (fun x hx => (List.mem_filter.mp (mem_of_mem_sliceNeg hx)).2)
  have h3 : (l.filter otherP).filter toastP = [] :=
    List.filter_eq_nil_iff.mpr (fun x hx => by
      have ho := (List.mem_filter.mp hx).2
      simp [toastP_of_otherP ho])
  unfold limitVisibleAlerts
  simp only [List.filter_append, h1, h2, h3]
  simp

/-- The banner bucket of the committed active set is the
slice(-maxVisibleBanners) of the banners of the input list. -/
theorem filter_bannerP_limitVisibleAlerts (l : List Alert) (cfg : AlertConfig) :
    (limitVisibleAlerts l cfg).filter bannerP =
      sliceNeg cfg.maxVisibleBanners (l.filter bannerP) := by
  have h1 : (sliceNeg cfg.maxVisibleBanners (l.filter bannerP)).filter bannerP =
      sliceNeg cfg.maxVisibleBanners (l.filter bannerP) :=
    List.filter_eq_self.mpr
      (fun x hx => (List.mem_filter.mp (mem_of_mem_sliceNeg hx)).2)
  have h2 : (sliceNeg cfg.maxVisibleToasts (l.filter toastP)).filter bannerP = [] :=
    List.filter_eq_nil_iff.mpr (fun x hx => by
      have ht := (List.mem_filter.mp (mem_of_mem_sliceNeg hx)).2
      simp [bannerP_of_toastP ht])
  have h3 : (l.filter otherP).filter bannerP = [] :=
    List.filter_eq_nil_iff.mpr (fun x hx => by
      have ho := (List.mem_filter.mp hx).2
      simp [bannerP_of_otherP ho])
  unfold limitVisibleAlerts
  simp only [List.filter_append, h1, h2, h3]
  simp

/-- Alerts of the non-toast non-banner display modes pass through the
visibility filter untouched. -/
theorem filter_otherP_limitVisibleAlerts (l : List Alert) (cfg : AlertConfig) :
    (limitVisibleAlerts l cfg).filter otherP = l.filter otherP := by
  have h1 : (sliceNeg cfg.maxVisibleBanners (l.filter bannerP)).filter otherP = [] :=
    List.filter_eq_nil_iff.mpr (fun x hx => by
      have hb := (List.mem_filter.mp (mem_of_mem_sliceNeg hx)).2
      simp [otherP_of_bannerP hb])
  have h2 : (sliceNeg cfg.maxVisibleToasts (l.filter toastP)).filter otherP = [] :=
    List.filter_eq_nil_iff.mpr (fun x hx => by
      have ht := (List.mem_filter.mp (mem_of_mem_sliceNeg hx)).2
      simp [otherP_of_toastP ht])
  have h3 : (l.filter otherP).filter otherP = l.filter otherP :=
    List.filter_eq_self.mpr (fun x hx => (List.mem_filter.mp hx).2)
  unfold limitVisibleAlerts
  simp only [List.filter_append, h1, h2, h3]
  simp

/-- enqueueAlert only rewrites the queue: every other state field is kept. -/
theorem enqueueAlert_preserves_rest (now : Nat) (s : AlertStoreState) (a : Alert) :
    (enqueueAlert now s a).activeAlerts = s.activeAlerts ∧
    (enqueueAlert now s a).config = s.config ∧
    (enqueueAlert now s a).isPaused = s.isPaused ∧
    (enqueueAlert now s a).isProcessing = s.isProcessing :=
  ⟨rfl, rfl, rfl, rfl⟩

/-- dequeueAlert only rewrites the queue of the state it returns. -/
theorem dequeueAlert_snd_preserves (s : AlertStoreState) :
    (dequeueAlert s).2.activeAlerts = s.activeAlerts ∧
    (dequeueAlert s).2.config = s.config ∧
    (dequeueAlert s).2.isPaused = s.isPaused ∧
    (dequeueAlert s).2.isProcessing = s.isProcessing := by
  unfold dequeueAlert
  split
  · exact ⟨rfl, rfl, rfl, rfl⟩
  · split
    · exact ⟨rfl, rfl, rfl, rfl⟩
    · exact ⟨rfl, rfl, rfl, rfl⟩

/-- The freshly enqueued item is always in the committed queue: the
slice(-maxQueueSize) overflow cut keeps the appended tail and the priority
sort only permutes. -/
theorem self_mem_enqueueAlert (now : Nat) (s : AlertStoreState) (a : Alert) :
    ({ alert := a, enqueueAt := now } : AlertQueueItem) ∈ (enqueueAlert now s a).queue := by
  unfold enqueueAlert
  dsimp only
  split
  · rw [mem_sortByPriorityDesc]
    split
    · exact self_mem_sliceNeg_append _ _ _
    · exact List.mem_append_right _ (List.mem_singleton_self _)
  · split
    · exact self_mem_sliceNeg_append _ _ _
    · exact List.mem_append_right _ (List.mem_singleton_self _)

/-- In priority mode the committed queue of any enqueue is sorted descending
by effective priority. -/
theorem sorted_queue_enqueueAlert (now : Nat) (s : AlertStoreState) (a : Alert)
    (hm : s.config.queueMode = QueueMode.priority) :
    List.Sorted priGE (enqueueAlert now s a).queue := by
  unfold enqueueAlert
  dsimp only
  rw [if_pos hm]
  exact sorted_sortByPriorityDesc _

/-! Claim theorems. -/

/-- C1, amended.  After any enqueueAlert the pending queue length never
exceeds config.maxQueueSize provided maxQueueSize is at least 1, and in the
fifo and lifo queue modes — where the stored queue is in insertion order —
the committed queue is a suffix of the previous queue with the new item
appended, so overflow evicts exactly the oldest-inserted entries; with
maxQueueSize = 2, enqueuing A, B, C in order leaves exactly B, C in both
fifo and lifo modes.  (The original claim fails in priority mode, where the
overflow cut slice(-maxQueueSize) is taken on the priority-sorted queue, and
at maxQueueSize = 0, where slice(-0) keeps the whole queue.) -/
theorem claim_C1_queue_bound :
    (∀ (now : Nat) (s : AlertStoreState) (a : Alert),
      1 ≤ s.config.maxQueueSize →
      (enqueueAlert now s a).queue.length ≤ s.config.maxQueueSize) ∧
    (∀ (now : Nat) (s : AlertStoreState) (a : Alert),
      s.config.queueMode ≠ QueueMode.priority →
      (enqueueAlert now s a).queue <:+ s.queue ++ [{ alert := a, enqueueAt := now }]) ∧
    (run3 cfgFifo2).queue.map (fun i => i.alert.id) = ["B", "C"] ∧
    (run3 cfgLifo2).queue.map (fun i => i.alert.id) = ["B", "C"] := by
  refine ⟨?_, ?_, by decide, by decide⟩
  · intro now s a h
    unfold enqueueAlert
    dsimp only
    split
    · rw [length_sortByPriorityDesc]
      split
      · exact length_sliceNeg_le (by omega) _
      · rename_i hno
        simp only [List.length_append, List.length_cons, List.length_nil] at hno ⊢
        omega
    · split
      · exact length_sliceNeg_le (by omega) _
      · rename_i hno
        simp only [List.length_append, List.length_cons, List.length_nil] at hno ⊢
        omega
  · intro now s a hmode
    unfold enqueueAlert
    dsimp only
    rw [if_neg hmode]
    split
    · exact sliceNeg_suffix _ _
    · exact List.suffix_refl _

/-- Witness for C1: the bound and the suffix statement instantiated on a
concrete fifo store. -/
theorem claim_C1_queue_bound_witness :
    (enqueueAlert 1 (emptyStore cfgFifo2) aA).queue.length ≤
      (emptyStore cfgFifo2).config.maxQueueSize ∧
    (enqueueAlert 1 (emptyStore cfgFifo2) aA).queue <:+
      (emptyStore cfgFifo2).queue ++ [{ alert := aA, enqueueAt := 1 }] :=
  ⟨claim_C1_queue_bound.1 1 (emptyStore cfgFifo2) aA (by decide),
   claim_C1_queue_bound.2.1 1 (emptyStore cfgFifo2) aA (by decide)⟩

/-- Counterexample to C1 as stated.  In priority mode with maxQueueSize = 2,
enqueuing A(priority 1) at time 1, B(priority 5) at time 2 and C(priority 0)
at time 3 leaves A and C: the evicted entry is B, inserted after A, while the
oldest entry A survives — eviction is not oldest-first in priority mode.
And with maxQueueSize = 0 a single enqueue leaves queue length 1, above the
cap. -/
theorem claim_C1_counterexample :
    cfgPrio2.maxQueueSize = 2 ∧
    runPrioEvict.queue.map (fun i => (i.alert.id, i.enqueueAt)) = [("A", 1), ("C", 3)] ∧
    cfgQueue0.maxQueueSize = 0 ∧
    (enqueueAlert 1 (emptyStore cfgQueue0) aA).queue.length = 1 :=
  ⟨rfl, by decide, rfl, by decide⟩

/-- C2, amended.  After any addAlert the committed active set holds at most
maxVisibleToasts toast alerts and at most maxVisibleBanners banner alerts
provided each cap is at least 1; the kept toast (resp. banner) alerts are a
suffix — the most recently added ones — of the toasts (banners) of the
appended list; alerts of the other display modes all survive; and the
committed list is ordered banners, then toasts, then others.  (The original
claim fails at cap 0, where slice(-0) keeps the whole bucket; see the
counterexample.) -/
theorem claim_C2_visibility_caps :
    (∀ (s : AlertStoreState) (a : Alert),
      s.config.maxVisibleToasts ≠ 0 →
      (addAlert s a).activeAlerts.countP toastP ≤ s.config.maxVisibleToasts) ∧
    (∀ (s : AlertStoreState) (a : Alert),
      s.config.maxVisibleBanners ≠ 0 →
      (addAlert s a).activeAlerts.countP bannerP ≤ s.config.maxVisibleBanners) ∧
    (∀ (s : AlertStoreState) (a : Alert),
      (addAlert s a).activeAlerts.filter otherP = (s.activeAlerts ++ [a]).filter otherP) ∧
    (∀ (s : AlertStoreState) (a : Alert),
      (addAlert s a).activeAlerts.filter toastP <:+ (s.activeAlerts ++ [a]).filter toastP) ∧
    (∀ (s : AlertStoreState) (a : Alert),
      (addAlert s a).activeAlerts.filter bannerP <:+ (s.activeAlerts ++ [a]).filter bannerP) ∧
    (∀ (s : AlertStoreState) (a : Alert),
      (addAlert s a).activeAlerts =
        (addAlert s a).activeAlerts.filter bannerP ++
          (addAlert s a).activeAlerts.filter toastP ++
          (addAlert s a).activeAlerts.filter otherP) := by
  refine ⟨?_, ?_, ?_, ?_, ?_, ?_⟩
  · intro s a h
    show (limitVisibleAlerts (s.activeAlerts ++ [a]) s.config).countP toastP ≤ _
    rw [List.countP_eq_length_filter, filter_toastP_limitVisibleAlerts]
    exact length_sliceNeg_le h _
  · intro s a h
    show (limitVisibleAlerts (s.activeAlerts ++ [a]) s.config).countP bannerP ≤ _
    rw [List.countP_eq_length_filter, filter_bannerP_limitVisibleAlerts]
    exact length_sliceNeg_le h _
  · intro s a
    exact filter_otherP_limitVisibleAlerts (s.activeAlerts ++ [a]) s.config
  · intro s a
    show (limitVisibleAlerts (s.activeAlerts ++ [a]) s.config).filter toastP <:+ _
    rw [filter_toastP_limitVisibleAlerts]
    exact sliceNeg_suffix _ _
  · intro s a
    show (limitVisibleAlerts (s.activeAlerts ++ [a]) s.config).filter bannerP <:+ _
    rw [filter_bannerP_limitVisibleAlerts]
    exact sliceNeg_suffix _ _
  · intro s a
    simp only [addAlert]
    rw [filter_bannerP_limitVisibleAlerts, filter_toastP_limitVisibleAlerts,
      filter_otherP_limitVisibleAlerts]
    rfl

/-- Witness for C2: both caps instantiated on the default configuration. -/
theorem claim_C2_visibility_caps_witness :
    (addAlert (emptyStore DEFAULT_ALERT_CONFIG) aA).activeAlerts.countP toastP ≤
      (emptyStore DEFAULT_ALERT_CONFIG).config.maxVisibleToasts ∧
    (addAlert (emptyStore DEFAULT_ALERT_CONFIG) aA).activeAlerts.countP bannerP ≤
      (emptyStore DEFAULT_ALERT_CONFIG).config.maxVisibleBanners :=
  ⟨claim_C2_visibility_caps.1 (emptyStore DEFAULT_ALERT_CONFIG) aA (by decide),
   claim_C2_visibility_caps.2.1 (emptyStore DEFAULT_ALERT_CONFIG) aA (by decide)⟩

/-- Counterexample to C2 as stated: with maxVisibleToasts = 0, adding one
toast leaves one toast in the active set — the cap is exceeded because
slice(-0) keeps every toast. -/
theorem claim_C2_counterexample :
    cfgToast0.maxVisibleToasts = 0 ∧
    (addAlert (emptyStore cfgToast0) aA).activeAlerts.countP toastP = 1 :=
  ⟨rfl, by decide⟩

/-- C3.  dequeueAlert returns none and leaves the state untouched when the
queue is empty or the store is paused; otherwise it removes and returns
exactly one item — the tail in lifo mode, the head in fifo and priority
modes.  After any priority-mode enqueue the queue is sorted descending by
effective priority, so its head has maximal priority; the re-sort is stable
(each priority class keeps its original order); and enqueuing A(priority 1),
B(priority 5), C(priority 3) dequeues B, then C, then A. -/
theorem claim_C3_dequeue :
    (∀ s : AlertStoreState, s.queue = [] ∨ s.isPaused = true → dequeueAlert s = (none, s)) ∧
    (∀ (s : AlertStoreState) (i : AlertQueueItem) (q : List AlertQueueItem),
      s.isPaused = false → s.config.queueMode = QueueMode.lifo → s.queue = q ++ [i] →
      dequeueAlert s = (some i.alert, { s with queue := q })) ∧
    (∀ (s : AlertStoreState) (i : AlertQueueItem) (q : List AlertQueueItem),
      s.isPaused = false → s.config.queueMode ≠ QueueMode.lifo → s.queue = i :: q →
      dequeueAlert s = (some i.alert, { s with queue := q })) ∧
    (∀ (now : Nat) (s : AlertStoreState) (a : Alert),
      s.config.queueMode = QueueMode.priority →
      List.Sorted priGE (enqueueAlert now s a).queue) ∧
    (∀ (now : Nat) (s : AlertStoreState) (a : Alert)
      (hd : AlertQueueItem) (tl : List AlertQueueItem),
      s.config.queueMode = QueueMode.priority →
      (enqueueAlert now s a).queue = hd :: tl →
      ∀ i ∈ tl, priorityOf i ≤ priorityOf hd) ∧
    (∀ (p : Int) (l : List AlertQueueItem),
      (sortByPriorityDesc l).filter (priEq p) = l.filter (priEq p)) ∧
    (dequeueAlert (run3 cfgPrio)).1.map Alert.id = some "B" ∧
    (dequeueAlert (dequeueAlert (run3 cfgPrio)).2).1.map Alert.id = some "C" ∧
    (dequeueAlert (dequeueAlert (dequeueAlert (run3 cfgPrio)).2).2).1.map Alert.id =
      some "A" := by
  refine ⟨?_, ?_, ?_, ?_, ?_, filter_priEq_sortByPriorityDesc, by decide, by decide, by decide⟩
  · intro s h
    have hcond : s.queue.length = 0 ∨ s.isPaused = true := by
      rcases h with h | h
      · left; simp [h]
      · right; exact h
    unfold dequeueAlert
    rw [if_pos hcond]
  · intro s i q hp hm hq
    have hne : ¬(s.queue.length = 0 ∨ s.isPaused = true) := by
      rw [hq, hp]
      simp
    unfold dequeueAlert
    rw [if_neg hne, if_pos hm, hq]
    rw [List.getLast?_concat, List.dropLast_concat]
    rfl
  · intro s i q hp hm hq
    have hne : ¬(s.queue.length = 0 ∨ s.isPaused = true) := by
      rw [hq, hp]
      simp
    unfold dequeueAlert
    rw [if_neg hne, if_neg hm, hq]
    rfl
  · intro now s a hm
    exact sorted_queue_enqueueAlert now s a hm
  · intro now s a hd tl hm heq i hi
    have hs := sorted_queue_enqueueAlert now s a hm
    rw [heq] at hs
    exact List.rel_of_sorted_cons hs i hi

/-- Witness for C3: each guarded statement instantiated on concrete
stores — a paused store, a lifo store and a fifo store with two queued
items, and a concrete priority-mode enqueue. -/
theorem claim_C3_dequeue_witness :
    dequeueAlert { emptyStore DEFAULT_ALERT_CONFIG with isPaused := true } =
      (none, { emptyStore DEFAULT_ALERT_CONFIG with isPaused := true }) ∧
    dequeueAlert { emptyStore cfgLifo2 with queue := [iA1, iB2] } =
      (some aB, { { emptyStore cfgLifo2 with queue := [iA1, iB2] } with queue := [iA1] }) ∧
    dequeueAlert { emptyStore DEFAULT_ALERT_CONFIG with queue := [iA1, iB2] } =
      (some aA, { { emptyStore DEFAULT_ALERT_CONFIG with queue := [iA1, iB2] } with queue := [iB2] }) ∧
    List.Sorted priGE (enqueueAlert 1 (emptyStore cfgPrio) aA).queue ∧
    (∀ i ∈ [iA1], priorityOf i ≤ priorityOf iB2) :=
  ⟨claim_C3_dequeue.1 _ (Or.inr rfl),
   claim_C3_dequeue.2.1 _ iB2 [iA1] rfl rfl rfl,
   claim_C3_dequeue.2.2.1 _ iA1 [iB2] rfl (by decide) rfl,
   claim_C3_dequeue.2.2.2.1 1 (emptyStore cfgPrio) aA rfl,
   claim_C3_dequeue.2.2.2.2.1 2 (enqueueAlert 1 (emptyStore cfgPrio) aA) aB iB2 [iA1]
     rfl (by decide)⟩

/-- C4, amended.  The scheduler path respects showAt: a processQueue tick
that dequeues an alert whose showAt is in the future re-enqueues it, leaving
the active set (and the isProcessing flag) unchanged, with the alert back in
the pending queue.  (The original claim also asserted this for the direct
addAlert path, but addAlert performs no showAt check; see the
counterexample.) -/
theorem claim_C4_no_early_promotion :
    ∀ (now : Nat) (s s2 : AlertStoreState) (alert : Alert),
      s.isPaused = false → s.isProcessing = false →
      dequeueAlert s = (some alert, s2) →
      showAtFuture now alert = true →
      (processQueue now s).activeAlerts = s.activeAlerts ∧
      alert ∈ (processQueue now s).queue.map AlertQueueItem.alert ∧
      (processQueue now s).isProcessing = false := by
  intro now s s2 alert hp hproc hdeq hshow
  have hcond : ¬(s.isPaused = true ∨ s.isProcessing = true) := by
    rw [hp, hproc]
    simp
  have hstep : processQueue now s = enqueueAlert now s2 alert := by
    unfold processQueue
    rw [if_neg hcond, hdeq]
    dsimp only
    rw [if_pos hshow]
  have hs2 := dequeueAlert_snd_preserves s
  rw [hdeq] at hs2
  refine ⟨?_, ?_, ?_⟩
  · rw [hstep, (enqueueAlert_preserves_rest now s2 alert).1]
    exact hs2.1
  · rw [hstep]
    exact List.mem_map.mpr ⟨{ alert := alert, enqueueAt := now },
      self_mem_enqueueAlert now s2 alert, rfl⟩
  · rw [hstep, (enqueueAlert_preserves_rest now s2 alert).2.2.2]
    rw [hs2.2.2.2]
    exact hproc

/-- Witness for C4: a fifo store whose queue holds one alert with
showAt = 100; a tick at time 0 leaves the active set empty, keeps the alert
queued and does not set isProcessing. -/
theorem claim_C4_no_early_promotion_witness :
    (processQueue 0 sDelayed).activeAlerts = sDelayed.activeAlerts ∧
    aDelayed ∈ (processQueue 0 sDelayed).queue.map AlertQueueItem.alert ∧
    (processQueue 0 sDelayed).isProcessing = false :=
  claim_C4_no_early_promotion 0 sDelayed { sDelayed with queue := [] } aDelayed
    rfl rfl (by decide) (by decide)

/-- Counterexample to C4 as stated: addAlert does not inspect showAt, so an
alert whose showAt = 100 lies in the future (relative to add time 0) is in
the active set immediately after a direct addAlert. -/
theorem claim_C4_counterexample :
    aDelayed.showAt = some 100 ∧ (0 : Nat) < 100 ∧
    aDelayed ∈ (addAlert (emptyStore DEFAULT_ALERT_CONFIG) aDelayed).activeAlerts :=
  ⟨rfl, by omega, by decide⟩

/-- C5.  addAlert schedules an auto-dismiss exactly when the alert's
duration is strictly positive: the scheduled removal targets the alert's id
and fires at add time + duration; with duration 0 or absent nothing is
scheduled; and firing the scheduled removal (removeAlert of that id) leaves
no alert with that id in the active set. -/
theorem claim_C5_auto_dismiss :
    (∀ (now : Nat) (a : Alert) (d : Int),
      a.duration = some d → 0 < d →
      addAlertScheduledRemoval now a = some ((now : Int) + d, a.id)) ∧
    (∀ (now : Nat) (a : Alert),
      a.duration = none → addAlertScheduledRemoval now a = none) ∧
    (∀ (now : Nat) (a : Alert),
      a.duration = some 0 → addAlertScheduledRemoval now a = none) ∧
    (∀ (s : AlertStoreState) (a x : Alert),
      x ∈ (removeAlert (addAlert s a) a.id).activeAlerts → x.id ≠ a.id) := by
  refine ⟨?_, ?_, ?_, ?_⟩
  · intro now a d hd hpos
    unfold addAlertScheduledRemoval
    rw [hd]
    dsimp only
    rw [if_pos ⟨by omega, hpos⟩]
  · intro now a hd
    unfold addAlertScheduledRemoval
    rw [hd]
  · intro now a hd
    unfold addAlertScheduledRemoval
    rw [hd]
    dsimp only
    rw [if_neg (by simp)]
  · intro s a x hx
    simp only [removeAlert, List.mem_filter] at hx
    exact of_decide_eq_true hx.2

/-- Witness for C5: an alert with duration 100 added at time 5 schedules the
removal of its id at time 105; alerts with absent or zero duration schedule
nothing; and the fired removal leaves no alert with the dismissed id. -/
theorem claim_C5_auto_dismiss_witness :
    addAlertScheduledRemoval 5 aDur100 = some (105, "D") ∧
    addAlertScheduledRemoval 5 aA = none ∧
    addAlertScheduledRemoval 5 aDur0 = none ∧
    (∀ x ∈ (removeAlert (addAlert (emptyStore DEFAULT_ALERT_CONFIG) aDur100)
        aDur100.id).activeAlerts, x.id ≠ aDur100.id) :=
  ⟨claim_C5_auto_dismiss.1 5 aDur100 100 rfl (by omega),
   claim_C5_auto_dismiss.2.1 5 aA rfl,
   claim_C5_auto_dismiss.2.2.1 5 aDur0 rfl,
   fun x hx => claim_C5_auto_dismiss.2.2.2 (emptyStore DEFAULT_ALERT_CONFIG) aDur100 x hx⟩

/-- C6.  With persistAlerts enabled, saving the current snapshot and loading
it into a fresh empty store reproduces the saved active set and pending
queue verbatim. -/
theorem claim_C6_persistence_roundtrip :
    ∀ (s fresh : AlertStoreState),
      s.config.persistAlerts = true →
      fresh.activeAlerts = [] → fresh.queue = [] →
      (loadPersistedAlerts (persistAlertsStore s) fresh).activeAlerts = s.activeAlerts ∧
      (loadPersistedAlerts (persistAlertsStore s) fresh).queue = s.queue := by
  intro s fresh hpersist hactive hqueue
  exact ⟨rfl, rfl⟩

/-- Witness for C6: a store with one active alert and one queued item under
persistAlerts = true, saved and loaded into the default fresh store. -/
theorem claim_C6_persistence_roundtrip_witness :
    (loadPersistedAlerts (persistAlertsStore sSaved)
      (emptyStore DEFAULT_ALERT_CONFIG)).activeAlerts = sSaved.activeAlerts ∧
    (loadPersistedAlerts (persistAlertsStore sSaved)
      (emptyStore DEFAULT_ALERT_CONFIG)).queue = sSaved.queue :=
  claim_C6_persistence_roundtrip sSaved (emptyStore DEFAULT_ALERT_CONFIG) rfl rfl rfl

/-- C7.  createErrorAlert forces the long default: its duration is the
caller's options.duration when given and ALERT_DURATIONS.LONG = 5000
otherwise, while createAlert itself — and hence the success, warning and
info constructors — defaults the duration to ALERT_DURATIONS.MEDIUM =
3000. -/
theorem claim_C7_duration_defaults :
    ∀ (now : Nat) (rand title : String) (message : Option String)
      (o : Option AlertOptions) (input : CreateAlertInput),
      (createErrorAlert now rand title message o).duration =
        some ((o.bind AlertOptions.duration).getD ALERT_DURATIONS_LONG) ∧
      (createSuccessAlert now rand title message o).duration =
        some ((o.bind AlertOptions.duration).getD ALERT_DURATIONS_MEDIUM) ∧
      (createWarningAlert now rand title message o).duration =
        some ((o.bind AlertOptions.duration).getD ALERT_DURATIONS_MEDIUM) ∧
      (createInfoAlert now rand title message o).duration =
        some ((o.bind AlertOptions.duration).getD ALERT_DURATIONS_MEDIUM) ∧
      (createAlert now rand input).duration =
        some (((input.options.getD defaultAlertOptions).duration).getD
          ALERT_DURATIONS_MEDIUM) ∧
      ALERT_DURATIONS_LONG = 5000 ∧ ALERT_DURATIONS_MEDIUM = 3000 := by
  intro now rand title message o input
  refine ⟨?_, ?_, ?_, ?_, rfl, rfl, rfl⟩ <;> cases o <;> rfl

/-- C8: evidence of the id-collision bug.  generateId is a pure function of
the wall-clock millisecond and the random suffix; two create calls that
observe the same Date.now() value and the same Math.random() suffix — here
both at millisecond 1000 with suffix k3j9xq1 — return alerts with identical
ids, so ids are not pairwise distinct across a running process. -/
theorem claim_C8_generateId_collision :
    generateId 1000 "k3j9xq1" = "alert_1000_k3j9xq1" ∧
    (createSuccessAlert 1000 "k3j9xq1" "saved" none none).id =
      (createErrorAlert 1000 "k3j9xq1" "failed" none none).id :=
  ⟨by decide, by decide⟩

/-- C9.  removeAlert with an id absent from the active set is a strict
no-op: the whole store state — active set, queue, config and both flags —
is returned unchanged. -/
theorem claim_C9_remove_absent_noop :
    ∀ (s : AlertStoreState) (id : String),
      (∀ a ∈ s.activeAlerts, a.id ≠ id) → removeAlert s id = s := by
  intro s id h
  have hf : s.activeAlerts.filter (fun a => decide (a.id ≠ id)) = s.activeAlerts :=
    List.filter_eq_self.mpr (fun a ha => decide_eq_true (h a ha))
  unfold removeAlert
  rw [hf]

/-- Witness for C9: removing the id Z from a store whose only active alert
has id A returns the store unchanged. -/
theorem claim_C9_remove_absent_noop_witness :
    removeAlert { emptyStore DEFAULT_ALERT_CONFIG with activeAlerts := [aA] } "Z" =
      { emptyStore DEFAULT_ALERT_CONFIG with activeAlerts := [aA] } :=
  claim_C9_remove_absent_noop { emptyStore DEFAULT_ALERT_CONFIG with activeAlerts := [aA] }
    "Z" (by decide)

/-- C10.  createAlert is a total function that validates nothing: for every
input — the empty-string title included — it returns an alert carrying the
title verbatim with the type, mode, position, animation, duration,
dismissible, hapticFeedback, priority and icon defaults filled in, and the
show path builds its input with title coerced from an absent value to the
empty string. -/
theorem claim_C10_create_total :
    ∀ (now : Nat) (rand : String) (input : CreateAlertInput) (p : PartialAlertInput),
      (createAlert now rand input).title = input.title ∧
      (createAlert now rand input).type = input.type.getD AlertType.info ∧
      (createAlert now rand input).mode = input.mode.getD AlertMode.toast ∧
      (createAlert now rand input).position =
        some ((input.options.getD defaultAlertOptions).position.getD
          (getDefaultPosition (input.mode.getD AlertMode.toast))) ∧
      (createAlert now rand input).animation =
        some ((input.options.getD defaultAlertOptions).animation.getD
          AlertAnimation.slide) ∧
      (createAlert now rand input).duration =
        some ((input.options.getD defaultAlertOptions).duration.getD
          ALERT_DURATIONS_MEDIUM) ∧
      (createAlert now rand input).dismissible =
        some ((input.options.getD defaultAlertOptions).dismissible.getD true) ∧
      (createAlert now rand input).hapticFeedback =
        some ((input.options.getD defaultAlertOptions).hapticFeedback.getD true) ∧
      (createAlert now rand input).priority =
        some ((input.options.getD defaultAlertOptions).priority.getD 0) ∧
      (createAlert now rand input).icon =
        some ((input.options.getD defaultAlertOptions).icon.getD
          (ALERT_ICONS (input.type.getD AlertType.info))) ∧
      (showAlert now rand p).title = p.title.getD "" :=
  fun _ _ _ _ =>
    ⟨rfl, rfl, rfl, rfl, rfl, rfl, rfl, rfl, rfl, rfl, rfl⟩

end AlertSpec
